import Mathlib

/-!
Verification of `llm_benchmark.py`.

A shallow embedding of the benchmark-running script: memory-log scanning
(`check_task_completion`), metric computation (`calculate_metrics`), the
settings-file backup/restore pair (`edit_settings` / `restore_settings`),
the per-trial runner (`run_benchmark`), and the report flattening/grouping
(`generate_report`).

Machine conventions: Python strings are `String`, Python float arithmetic on
times/ratios is modelled exactly over `ℚ`, the file system is a partial map
from path to content, and a raised-and-propagated Python exception is an
`Except.error`.
-/

/-- Substring test on character lists: `leadsB p s` is true when `p` is an
initial segment of `s` (the building block of the containment test). -/
def leadsB : List Char → List Char → Bool
  | [], _ => true
  | _ :: _, [] => false
  | a :: as, b :: bs => a == b && leadsB as bs

/-- Predicate `hasSubB p s`: true when `p` occurs contiguously somewhere in `s`. -/
def hasSubB (pat : List Char) : List Char → Bool
  | [] => leadsB pat []
  | b :: bs => leadsB pat (b :: bs) || hasSubB pat bs

/-- Python substring containment `pat in s`, on strings. -/
def strHas (s pat : String) : Bool := hasSubB pat.toList s.toList

/-- One entry of the `turns` array of the agent `memory.json` file: a `role` and a
free-text `content`. -/
structure Turn where
  role : String
  content : String
deriving DecidableEq, Repr

/-- The parsed memory log: `{"turns": [...]}`. -/
structure Memory where
  turns : List Turn
deriving DecidableEq, Repr

/-- Outcome of `open(memory_path)` followed by `json.load` and shape access.
`fileNotFound` models a raised `FileNotFoundError`, `jsonDecodeError` a raised
`json.JSONDecodeError` (the two exception classes the script catches);
`otherError` models any other exception raised while reading or using the
artifact (permission errors, invalid encoding, a parsed document without the
expected `turns`/`role`/`content` fields raising `KeyError`, ...), which the
`except (FileNotFoundError, json.JSONDecodeError)` clauses do not catch. -/
inductive ReadResult where
  | ok (m : Memory)
  | fileNotFound
  | jsonDecodeError
  | otherError
deriving DecidableEq, Repr

/-- The on-disk state visible to the script, as parsed memory logs per path. -/
def MemFS : Type := String → ReadResult

/-- Path `memory_path = f"bots/.../memory.json"` derived from the agent name
(lines 124, 149, 169). -/
def memory_path (agent_name : String) : String :=
  "bots/" ++ agent_name ++ "/memory.json"

/-- The loop `for turn in reversed(memory["turns"])` of
`check_task_completion` (lines 155-161), applied to the already-reversed
turn list: the first system turn containing `code` is inspected; `code : 2`
returns true, else `code : 4` returns false, else the scan continues. -/
def checkTurnsRev : List Turn → Bool
  | [] => false
  | t :: rest =>
    if t.role == "system" && strHas t.content "code" then
      if strHas t.content "code : 2" then true
      else if strHas t.content "code : 4" then false
      else checkTurnsRev rest
    else checkTurnsRev rest

/-- Function `check_task_completion(agent_name, task_id)` (lines 147-165).
The read of
`bots/{agent_name}/memory.json` is resolved against `fs`; `FileNotFoundError`
and `json.JSONDecodeError` are caught and fall through to `return False`,
any other exception propagates (`Except.error`). `task_id` is accepted but
never used. -/
def check_task_completion (agent_name task_id : String) (fs : MemFS) :
    Except Unit Bool :=
  match fs (memory_path agent_name) with
  | .ok m => .ok (checkTurnsRev m.turns.reverse)
  | .fileNotFound => .ok false
  | .jsonDecodeError => .ok false
  | .otherError => .error ()

/-- A turn carrying a completion-code marker, in the sense of the spec:
authored by the system role and containing the code-2 marker `code : 2` or
the code-4 marker `code : 4`. -/
def isMarkerTurn (t : Turn) : Bool :=
  t.role == "system" && (strHas t.content "code : 2" || strHas t.content "code : 4")

/-- Modelled from the words of the spec (for the C1 refinement comparison):
scanning turns from the last to the first, the most recent system-role turn
carrying a completion-code marker decides the result — true exactly when it
contains `code : 2`; false when no marker turn exists or when the file is
absent or corrupt. -/
def specCompletionCheck (r : ReadResult) : Bool :=
  match r with
  | .ok m =>
    match m.turns.reverse.find? isMarkerTurn with
    | some t => strHas t.content "code : 2"
    | none => false
  | _ => false

/-- The metrics dict built by `calculate_metrics` (lines 170-176). Counts are
`Nat`; the Python float ratio and the float char estimate are exact rationals. -/
structure Metrics where
  task_completion : Bool
  time_taken : ℚ
  code_generation_attempts : ℕ
  code_execution_success_rate : ℚ
  tokens_consumed : ℚ
deriving DecidableEq, Repr

/-- The metrics dict as initialised on lines 170-176, before the `try` block. -/
def initMetrics (success : Bool) (time_taken : ℚ) : Metrics :=
  { task_completion := success
    time_taken := time_taken
    code_generation_attempts := 0
    code_execution_success_rate := 0
    tokens_consumed := 0 }

/-- Counter `code_attempts` (lines 183-188): system turns whose content
contains `Generated code:`. -/
def countAttempts (m : Memory) : ℕ :=
  m.turns.countP (fun t => t.role == "system" && strHas t.content "Generated code:")

/-- Counter `code_successes` (lines 184-190): system turns whose content
contains `Code generation result: true`. -/
def countSuccesses (m : Memory) : ℕ :=
  m.turns.countP (fun t => t.role == "system" && strHas t.content "Code generation result: true")

/-- The sum `total_chars` of the content lengths of all turns (line 198). -/
def totalChars (m : Memory) : ℕ :=
  (m.turns.map (fun t => t.content.length)).sum

/-- Function `calculate_metrics(agent_name, time_taken, success)`
(lines 167-204):
initialises the metrics dict, re-reads `bots/{agent_name}/memory.json`, counts
attempts and successes, guards the division by zero, estimates tokens as
`total_chars / 4`; `FileNotFoundError` / `json.JSONDecodeError` are caught and
the initial dict is returned; any other exception propagates. -/
def calculate_metrics (agent_name : String) (fs : MemFS) (time_taken : ℚ)
    (success : Bool) : Except Unit Metrics :=
  match fs (memory_path agent_name) with
  | .ok m =>
    .ok { initMetrics success time_taken with
          code_generation_attempts := countAttempts m
          code_execution_success_rate :=
            if countAttempts m > 0 then (countSuccesses m : ℚ) / (countAttempts m : ℚ) else 0
          tokens_consumed := (totalChars m : ℚ) / 4 }
  | .fileNotFound => .ok (initMetrics success time_taken)
  | .jsonDecodeError => .ok (initMetrics success time_taken)
  | .otherError => .error ()

/-- A byte-content file system: path to file content, `none` meaning absent. -/
def FS : Type := String → Option String

/-- Model of `open(p, "w")` followed by `f.write(c)`: create or overwrite
the file at `p` with content `c`. -/
def writeFile (fs : FS) (p c : String) : FS :=
  fun q => if q = p then some c else fs q

/-- Deletion of path `p` (the source half of a `shutil.move`). -/
def removeFile (fs : FS) (p : String) : FS :=
  fun q => if q = p then none else fs q

/-- Model of `shutil.move(src, dst)`: `dst` receives the content of `src`
and `src` is removed. Python raises when `src` is absent; that case is
modelled as the identity and is unreachable in the two call sites of this
script, where the source is written (line 51) or checked for existence
(line 63) immediately before. -/
def moveFile (fs : FS) (src dst : String) : FS :=
  match fs src with
  | some c => removeFile (writeFile fs dst c) src
  | none => fs

/-- One character of `json.dumps` string escaping (quote, backslash and the
common control characters; the profile paths serialised by this script contain
none of the rarer control characters that `json.dumps` would `\uXXXX`-escape). -/
def jsonEscapeChar (c : Char) : String :=
  if c = '"' then "\\\""
  else if c = '\\' then "\\\\"
  else if c = '\n' then "\\n"
  else if c = '\t' then "\\t"
  else if c = '\r' then "\\r"
  else String.singleton c

/-- Serialisation `json.dumps` of one string. -/
def jsonDumpsStr (s : String) : String :=
  "\"" ++ String.join (s.toList.map jsonEscapeChar) ++ "\""

/-- Serialisation `json.dumps` of a list of strings. -/
def jsonDumpsList (l : List String) : String :=
  "[" ++ String.intercalate ", " (l.map jsonDumpsStr) ++ "]"

/-- The `settings_content` f-string of `edit_settings` (lines 39-49). -/
def settings_content (profiles : List String) : String :=
  "\n    export default \x7b\n        profiles: " ++ jsonDumpsList profiles ++
  ",\n        allow_insecure_coding: true,\n        port: 55916,\n        num_examples: 3,\n        relevant_docs_count: 5,\n        code_timeout_mins: 5,\n        base_profile: \"./profiles/defaults/_default.json\"\n    \x7d\n    "

/-- Function `edit_settings(profiles)` (lines 36-59): write the new content to
`settings.js.tmp`; if `settings.js` exists, copy it to `settings.js.bak`;
then `shutil.move` the temporary file onto `settings.js`. -/
def edit_settings (profiles : List String) (fs : FS) : FS :=
  let fs1 := writeFile fs "settings.js.tmp" (settings_content profiles)
  let fs2 :=
    match fs1 "settings.js" with
    | some c => writeFile fs1 "settings.js.bak" c
    | none => fs1
  moveFile fs2 "settings.js.tmp" "settings.js"

/-- Function `restore_settings()` (lines 61-64): if `settings.js.bak` exists,
`shutil.move` it onto `settings.js`; otherwise do nothing. -/
def restore_settings (fs : FS) : FS :=
  match fs "settings.js.bak" with
  | some _ => moveFile fs "settings.js.bak" "settings.js"
  | none => fs

/-- A task entry of the benchmark config: the task id and the optional
time limit consulted by `task.get("time_limit", 900)`. -/
structure BTask where
  id : String
  time_limit : Option ℕ
deriving DecidableEq, Repr

/-- Outcome of `subprocess.run(cmd, check=True, ..., timeout=...)`:
normal completion with captured streams, `subprocess.TimeoutExpired`, or any
other exception (including `CalledProcessError` from a non-zero exit). -/
inductive ProcOutcome where
  | completed (stdout stderr : String)
  | timedOut
  | failed (msg : String)
deriving DecidableEq, Repr

/-- Observable effects of one `run_benchmark` trial: the command line and
timeout handed to `subprocess.run`, the `(filename, content)` log files
written in the results directory, whether the memory / action-code artifacts
were copied, and the metrics record saved to `metrics.json` and returned. -/
structure RunOutput where
  invokedCmd : List String
  usedTimeout : ℕ
  writtenLogs : List (String × String)
  memoryCopied : Bool
  actionCodeCopied : Bool
  metrics : Metrics
  metricsSaved : Bool
deriving DecidableEq, Repr

/-- Function `run_benchmark(model, task, config, run_number)`
(lines 66-145), from the
results-directory setup onward: `agent_name` is the name staged by
`setup_profile`, `proc` gives the outcome of the subprocess as a function of the
timeout it is invoked with, `fs` is the disk state when the artifacts are read
back, `actionCodeExists` models `os.path.exists` on the action-code directory,
and `time_taken` is the wall-clock span measured around the subprocess call.
The three `try/except` branches each write their log files and fall through to
the copy, completion-check, metrics and save steps; an uncaught exception from
the memory read propagates (`Except.error`). `os.path.exists(memory_path)` is
false exactly when the read raises `FileNotFoundError`. -/
def run_benchmark (agent_name : String) (task : BTask) (proc : ℕ → ProcOutcome)
    (fs : MemFS) (actionCodeExists : Bool) (time_taken : ℚ) :
    Except Unit RunOutput :=
  let tmo := task.time_limit.getD 900 + 60
  let cmd := ["node", "main.js", "--task_path", "benchmark_tasks.json", "--task_id", task.id]
  let logs :=
    match proc tmo with
    | .completed out err => [("stdout.log", out), ("stderr.log", err)]
    | .timedOut => [("timeout.log", "Task timed out")]
    | .failed msg => [("error.log", "Error: " ++ msg)]
  match check_task_completion agent_name task.id fs with
  | .error e => .error e
  | .ok success =>
    match calculate_metrics agent_name fs time_taken success with
    | .error e => .error e
    | .ok metrics =>
      .ok { invokedCmd := cmd
            usedTimeout := tmo
            writtenLogs := logs
            memoryCopied := fs (memory_path agent_name) != .fileNotFound
            actionCodeCopied := actionCodeExists
            metrics := metrics
            metricsSaved := true }

/-- One row of the flattened `benchmark_data.csv` table (lines 209-223). -/
structure Row where
  model : String
  task : String
  run : ℕ
  completed : Bool
  time_s : ℚ
  codeAttempts : ℕ
  codeSuccessRate : ℚ
  tokens : ℚ
deriving DecidableEq, Repr

/-- Runs dict of one task: run number to metrics, in insertion order. -/
abbrev RunMap := List (ℕ × Metrics)

/-- Tasks dict of one model: task id to its runs, in insertion order. -/
abbrev TaskMap := List (String × RunMap)

/-- The nested `results` mapping `model -> task -> run -> metrics` handed to
`generate_report`; Python dicts are association lists in insertion order. -/
abbrev ResultsMap := List (String × TaskMap)

/-- The `data.append({...})` body (lines 214-223) for one run entry. -/
def runRow (mn tid : String) (rp : ℕ × Metrics) : Row :=
  { model := mn
    task := tid
    run := rp.1
    completed := rp.2.task_completion
    time_s := rp.2.time_taken
    codeAttempts := rp.2.code_generation_attempts
    codeSuccessRate := rp.2.code_execution_success_rate
    tokens := rp.2.tokens_consumed }

/-- Inner loop over `task_runs.items()` (line 213). -/
def taskRows (mn : String) (tp : String × RunMap) : List Row :=
  tp.2.map (runRow mn tp.1)

/-- Middle loop over `model_results.items()` (line 212). -/
def modelRows (mp : String × TaskMap) : List Row :=
  mp.2.flatMap (taskRows mp.1)

/-- The triple loop of `generate_report` (lines 211-223) flattening `results`
into the rows of `benchmark_data.csv`. -/
def flattenResults (rs : ResultsMap) : List Row :=
  rs.flatMap modelRows

/-- The `["Model", "Task"]` groupby key of a row (line 231). -/
def rowKey (r : Row) : String × String := (r.model, r.task)

/-- The distinct group keys of `df.groupby(["Model", "Task"])`, one per
summary row. (Pandas emits groups in sorted key order; only the set of keys,
hence the row count and the per-group values, matter to the claims.) -/
def groupKeys (rows : List Row) : List (String × String) :=
  (rows.map rowKey).dedup

/-- The rows of one `(Model, Task)` group. -/
def groupOf (rows : List Row) (k : String × String) : List Row :=
  rows.filter (fun r => decide (rowKey r = k))

/-- Arithmetic mean of a column, as pandas `"mean"` aggregation computes it. -/
def meanQ (l : List ℚ) : ℚ := l.sum / (l.length : ℚ)

/-- The averaged `Completed` column of one summary group: booleans are
aggregated as 0/1 and averaged (lines 231-237). -/
def meanCompleted (rows : List Row) (k : String × String) : ℚ :=
  meanQ ((groupOf rows k).map (fun r => if r.completed then (1 : ℚ) else 0))

/-- One row of `benchmark_summary.csv`: the group key with each metric column
averaged across the runs of the group (lines 231-239). -/
structure SummaryRow where
  model : String
  task : String
  completedMean : ℚ
  timeMean : ℚ
  attemptsMean : ℚ
  successRateMean : ℚ
  tokensMean : ℚ
deriving DecidableEq, Repr

/-- The aggregated summary row of one group key. -/
def summaryRow (rows : List Row) (k : String × String) : SummaryRow :=
  { model := k.1
    task := k.2
    completedMean := meanCompleted rows k
    timeMean := meanQ ((groupOf rows k).map Row.time_s)
    attemptsMean := meanQ ((groupOf rows k).map (fun r => (r.codeAttempts : ℚ)))
    successRateMean := meanQ ((groupOf rows k).map Row.codeSuccessRate)
    tokensMean := meanQ ((groupOf rows k).map Row.tokens) }

/-- The `benchmark_summary.csv` table (lines 231-239): one aggregated row per
distinct `(Model, Task)` key of the flattened data. -/
def generate_report_summary (rows : List Row) : List SummaryRow :=
  (groupKeys rows).map (summaryRow rows)

/-- Number of `(model, task, run)` triples present in the nested mapping. -/
def numTriples (rs : ResultsMap) : ℕ :=
  (rs.map (fun mp => (mp.2.map (fun tp => tp.2.length)).sum)).sum

/-- Number of `(model, task)` pairs present in the nested mapping. -/
def numPairs (rs : ResultsMap) : ℕ :=
  (rs.map (fun mp => mp.2.length)).sum

/-- The `(model, task)` pairs of the nested mapping, in order. -/
def pairList (rs : ResultsMap) : List (String × String) :=
  rs.flatMap (fun mp => mp.2.map (fun tp => (mp.1, tp.1)))

/-- The `(model, task)` pairs of the nested mapping, each with its run count:
the group-key blocks underlying the flattened table. -/
def keyBlocks (rs : ResultsMap) : List ((String × String) × ℕ) :=
  rs.flatMap (fun mp => mp.2.map (fun tp => ((mp.1, tp.1), tp.2.length)))

/-- A small concrete memory log ending in a code-2 marker turn. -/
def memSuccess : Memory :=
  ⟨[⟨"user", "go"⟩, ⟨"system", "Task ended with code : 2"⟩]⟩

/-- A memory log with two attempts, one success, and 62 content characters. -/
def memMixed : Memory :=
  ⟨[⟨"system", "Generated code: a"⟩,
    ⟨"system", "Code generation result: true"⟩,
    ⟨"system", "Generated code:"⟩,
    ⟨"user", "hi"⟩]⟩

/-- A memory log whose success-marker turns outnumber its attempt-marker
turns: one `Generated code:` turn, two `Code generation result: true`
turns. -/
def memOverCount : Memory :=
  ⟨[⟨"system", "Generated code:"⟩,
    ⟨"system", "Code generation result: true"⟩,
    ⟨"system", "Code generation result: true"⟩]⟩

/-- A disk holding only a settings file with content `"orig"`. -/
def fsOrig : FS := fun p => if p = "settings.js" then some "orig" else none

/-- A disk with no settings file but a stale backup and a stale staging file. -/
def fsStale : FS := fun p =>
  if p = "settings.js.bak" then some "stale"
  else if p = "settings.js.tmp" then some "junk"
  else none

/-- An empty disk. -/
def fsEmpty : FS := fun _ => none

/-- A one-model, one-task, two-run results mapping built from concrete
metrics records. -/
def rsSmall : ResultsMap :=
  [("gpt", [("t1", [(1, initMetrics true 3), (2, initMetrics false 5)])])]

theorem leadsB_iff (p s : List Char) : leadsB p s = true ↔ p <+: s := by
  induction p generalizing s with
  | nil => simp [leadsB]
  | cons a as ih =>
    cases s with
    | nil => simp [leadsB]
    | cons b bs =>
      simp [leadsB, List.cons_prefix_cons, ih]

theorem hasSubB_iff (p s : List Char) : hasSubB p s = true ↔ p <:+: s := by
  induction s with
  | nil =>
    simp [hasSubB, leadsB_iff, List.prefix_nil, List.infix_nil]
  | cons b bs ih =>
    simp only [hasSubB, Bool.or_eq_true, leadsB_iff, ih]
    exact Iff.symm List.infix_cons_iff

/-- If `p₁` occurs inside `p₂`, any string containing `p₂` contains `p₁`. -/
theorem strHas_mono (s p₁ p₂ : String) (hsub : p₁.toList <:+: p₂.toList)
    (h : strHas s p₂ = true) : strHas s p₁ = true := by
  rw [strHas, hasSubB_iff] at h ⊢
  exact hsub.trans h

theorem checkTurnsRev_eq_find (l : List Turn) :
    checkTurnsRev l =
      (match l.find? isMarkerTurn with
       | some t => strHas t.content "code : 2"
       | none => false) := by
  induction l with
  | nil => rfl
  | cons t rest ih =>
    by_cases hr : (t.role == "system") = true
    · by_cases h2 : strHas t.content "code : 2" = true
      · have hc : strHas t.content "code" = true :=
          strHas_mono t.content "code" "code : 2" (by decide) h2
        simp [checkTurnsRev, List.find?, isMarkerTurn, hr, h2, hc]
      · by_cases h4 : strHas t.content "code : 4" = true
        · have hc : strHas t.content "code" = true :=
            strHas_mono t.content "code" "code : 4" (by decide) h4
          simp [checkTurnsRev, List.find?, isMarkerTurn, hr, h2, h4, hc]
        · by_cases hc : strHas t.content "code" = true
          · simp [checkTurnsRev, List.find?, isMarkerTurn, hr, h2, h4, hc, ih]
          · simp [checkTurnsRev, List.find?, isMarkerTurn, hr, h2, h4, hc, ih]
    · simp [checkTurnsRev, List.find?, isMarkerTurn, hr, ih]

/-- C1: for every memory log that does not raise an uncaught exception,
`check_task_completion` returns true iff, scanning turns from the last to the
first, the most recent system-role turn carrying a completion-code marker
contains `code : 2`; it returns false when `code : 4` is found first, when
no marker turn exists, and when the memory file is absent or corrupt. -/
theorem check_task_completion_matches_spec (agent_name task_id : String)
    (fs : MemFS) (h : fs (memory_path agent_name) ≠ ReadResult.otherError) :
    check_task_completion agent_name task_id fs =
      Except.ok (specCompletionCheck (fs (memory_path agent_name))) := by
  unfold check_task_completion specCompletionCheck
  cases hfs : fs (memory_path agent_name) with
  | ok m => exact congrArg Except.ok (checkTurnsRev_eq_find m.turns.reverse)
  | fileNotFound => rfl
  | jsonDecodeError => rfl
  | otherError => exact absurd hfs h

theorem check_task_completion_matches_spec_witness :
    check_task_completion "andy" "task1" (fun _ => ReadResult.ok memSuccess) =
      Except.ok (specCompletionCheck
        ((fun _ => ReadResult.ok memSuccess) (memory_path "andy"))) :=
  check_task_completion_matches_spec "andy" "task1"
    (fun _ => ReadResult.ok memSuccess) (by decide)

/-- C6: `check_task_completion` never consults its `task_id` argument — for a
fixed agent name and disk state, any two task ids give the same result. -/
theorem check_task_completion_ignores_task_id (agent_name t₁ t₂ : String)
    (fs : MemFS) :
    check_task_completion agent_name t₁ fs = check_task_completion agent_name t₂ fs := rfl

/-- C2 counterexample: a read failure other than `FileNotFoundError` or
`json.JSONDecodeError` (modelled by `ReadResult.otherError`, e.g. a permission
error, or valid JSON without a `turns` key raising `KeyError`) is not caught:
both functions propagate the exception instead of returning fallbacks. -/
theorem uncaught_read_failure_propagates :
    check_task_completion "andy" "task1" (fun _ => ReadResult.otherError) =
        Except.error () ∧
      calculate_metrics "andy" (fun _ => ReadResult.otherError) 5 false =
        Except.error () :=
  ⟨rfl, rfl⟩

/-- C2 (amended): for the two read failures the script catches — missing file
(`FileNotFoundError`) and malformed JSON (`json.JSONDecodeError`) — neither
function raises: `check_task_completion` returns false and `calculate_metrics`
returns the zero-valued initial metrics with `task_completion` and
`time_taken` preserved from the caller-supplied arguments. -/
theorem caught_read_failures_fall_back (agent_name task_id : String)
    (fs : MemFS) (t : ℚ) (s : Bool)
    (h : fs (memory_path agent_name) = ReadResult.fileNotFound ∨
         fs (memory_path agent_name) = ReadResult.jsonDecodeError) :
    check_task_completion agent_name task_id fs = Except.ok false ∧
      calculate_metrics agent_name fs t s = Except.ok (initMetrics s t) ∧
      (initMetrics s t).task_completion = s ∧
      (initMetrics s t).time_taken = t ∧
      (initMetrics s t).code_generation_attempts = 0 ∧
      (initMetrics s t).code_execution_success_rate = 0 ∧
      (initMetrics s t).tokens_consumed = 0 := by
  rcases h with h | h <;>
    exact ⟨by simp [check_task_completion, h], by simp [calculate_metrics, h],
           rfl, rfl, rfl, rfl, rfl⟩

theorem caught_read_failures_fall_back_witness :
    check_task_completion "andy" "task1" (fun _ => ReadResult.fileNotFound) =
        Except.ok false ∧
      calculate_metrics "andy" (fun _ => ReadResult.fileNotFound) 7 true =
        Except.ok (initMetrics true 7) ∧
      (initMetrics true 7).task_completion = true ∧
      (initMetrics true 7).time_taken = 7 ∧
      (initMetrics true 7).code_generation_attempts = 0 ∧
      (initMetrics true 7).code_execution_success_rate = 0 ∧
      (initMetrics true 7).tokens_consumed = 0 :=
  caught_read_failures_fall_back "andy" "task1" (fun _ => ReadResult.fileNotFound)
    7 true (Or.inl rfl)

/-- C5: on a readable memory log, the success rate is the count of system
turns containing `Code generation result: true` divided by the count of
system turns containing `Generated code:` when the latter is positive, and
0 when it is zero. -/
theorem success_rate_formula (agent_name : String) (fs : MemFS) (t : ℚ)
    (s : Bool) (m : Memory) (h : fs (memory_path agent_name) = ReadResult.ok m) :
    ∃ mt : Metrics, calculate_metrics agent_name fs t s = Except.ok mt ∧
      mt.code_execution_success_rate =
        (if countAttempts m > 0
         then (countSuccesses m : ℚ) / (countAttempts m : ℚ) else 0) := by
  unfold calculate_metrics
  rw [h]
  exact ⟨_, rfl, rfl⟩

theorem success_rate_formula_witness :
    ∃ mt : Metrics,
      calculate_metrics "andy" (fun _ => ReadResult.ok memMixed) 3 true =
          Except.ok mt ∧
        mt.code_execution_success_rate =
          (if countAttempts memMixed > 0
           then (countSuccesses memMixed : ℚ) / (countAttempts memMixed : ℚ)
           else 0) :=
  success_rate_formula "andy" (fun _ => ReadResult.ok memMixed) 3 true memMixed rfl

/-- C7: on a readable memory log, `tokens_consumed` equals the total character
count across all turn contents divided by 4. -/
theorem tokens_consumed_formula (agent_name : String) (fs : MemFS) (t : ℚ)
    (s : Bool) (m : Memory) (h : fs (memory_path agent_name) = ReadResult.ok m) :
    ∃ mt : Metrics, calculate_metrics agent_name fs t s = Except.ok mt ∧
      mt.tokens_consumed = (totalChars m : ℚ) / 4 := by
  unfold calculate_metrics
  rw [h]
  exact ⟨_, rfl, rfl⟩

theorem tokens_consumed_formula_witness :
    ∃ mt : Metrics,
      calculate_metrics "joe" (fun _ => ReadResult.ok memMixed) 0 false =
          Except.ok mt ∧
        mt.tokens_consumed = (totalChars memMixed : ℚ) / 4 :=
  tokens_consumed_formula "joe" (fun _ => ReadResult.ok memMixed) 0 false memMixed rfl

/-- C9: success and attempt markers are counted independently, so a log with
more success-marker turns than attempt-marker turns drives the rate above 1. -/
theorem success_rate_can_exceed_one :
    ∃ m : Memory, ∃ mt : Metrics,
      calculate_metrics "andy" (fun _ => ReadResult.ok m) 0 false =
          Except.ok mt ∧
        1 < mt.code_execution_success_rate := by
  refine ⟨memOverCount, _, rfl, ?_⟩
  have hA : countAttempts memOverCount = 1 := by decide
  have hS : countSuccesses memOverCount = 2 := by decide
  show (1 : ℚ) <
    (if countAttempts memOverCount > 0
     then (countSuccesses memOverCount : ℚ) / (countAttempts memOverCount : ℚ)
     else 0)
  rw [hA, hS]
  norm_num

/-- C3: whenever the artifact read does not raise an uncaught exception, one
trial invokes the subprocess with timeout `task.get("time_limit", 900) + 60`
and the task id on the command line; a timeout writes the timeout marker log,
any other execution failure writes the error marker log, normal completion
writes the stream logs; and in every branch the run still saves metrics and
returns a `Metrics` record. -/
theorem run_benchmark_every_branch_returns (agent_name : String) (task : BTask)
    (proc : ℕ → ProcOutcome) (fs : MemFS) (ac : Bool) (t : ℚ)
    (h : fs (memory_path agent_name) ≠ ReadResult.otherError) :
    ∃ out : RunOutput,
      run_benchmark agent_name task proc fs ac t = Except.ok out ∧
      out.usedTimeout = task.time_limit.getD 900 + 60 ∧
      out.invokedCmd =
        ["node", "main.js", "--task_path", "benchmark_tasks.json", "--task_id", task.id] ∧
      (proc (task.time_limit.getD 900 + 60) = ProcOutcome.timedOut →
        out.writtenLogs = [("timeout.log", "Task timed out")]) ∧
      (∀ msg, proc (task.time_limit.getD 900 + 60) = ProcOutcome.failed msg →
        out.writtenLogs = [("error.log", "Error: " ++ msg)]) ∧
      (∀ o e, proc (task.time_limit.getD 900 + 60) = ProcOutcome.completed o e →
        out.writtenLogs = [("stdout.log", o), ("stderr.log", e)]) ∧
      out.metricsSaved = true := by
  unfold run_benchmark check_task_completion calculate_metrics
  cases hfs : fs (memory_path agent_name) with
  | otherError => exact absurd hfs h
  | ok m =>
    refine ⟨_, rfl, rfl, rfl, ?_, ?_, ?_, rfl⟩
    · intro htm; simp [htm]
    · intro msg hf; simp [hf]
    · intro o e hc; simp [hc]
  | fileNotFound =>
    refine ⟨_, rfl, rfl, rfl, ?_, ?_, ?_, rfl⟩
    · intro htm; simp [htm]
    · intro msg hf; simp [hf]
    · intro o e hc; simp [hc]
  | jsonDecodeError =>
    refine ⟨_, rfl, rfl, rfl, ?_, ?_, ?_, rfl⟩
    · intro htm; simp [htm]
    · intro msg hf; simp [hf]
    · intro o e hc; simp [hc]

theorem run_benchmark_every_branch_returns_witness :
    ∃ out : RunOutput,
      run_benchmark "andy" ⟨"t1", some 100⟩ (fun _ => ProcOutcome.timedOut)
          (fun _ => ReadResult.fileNotFound) false 1 = Except.ok out ∧
      out.usedTimeout = (⟨"t1", some 100⟩ : BTask).time_limit.getD 900 + 60 ∧
      out.invokedCmd =
        ["node", "main.js", "--task_path", "benchmark_tasks.json", "--task_id",
         (⟨"t1", some 100⟩ : BTask).id] ∧
      ((fun _ => ProcOutcome.timedOut : ℕ → ProcOutcome)
          ((⟨"t1", some 100⟩ : BTask).time_limit.getD 900 + 60) = ProcOutcome.timedOut →
        out.writtenLogs = [("timeout.log", "Task timed out")]) ∧
      (∀ msg, (fun _ => ProcOutcome.timedOut : ℕ → ProcOutcome)
          ((⟨"t1", some 100⟩ : BTask).time_limit.getD 900 + 60) = ProcOutcome.failed msg →
        out.writtenLogs = [("error.log", "Error: " ++ msg)]) ∧
      (∀ o e, (fun _ => ProcOutcome.timedOut : ℕ → ProcOutcome)
          ((⟨"t1", some 100⟩ : BTask).time_limit.getD 900 + 60) = ProcOutcome.completed o e →
        out.writtenLogs = [("stdout.log", o), ("stderr.log", e)]) ∧
      out.metricsSaved = true :=
  run_benchmark_every_branch_returns "andy" ⟨"t1", some 100⟩
    (fun _ => ProcOutcome.timedOut) (fun _ => ReadResult.fileNotFound) false 1
    (by decide)

theorem restore_settings_no_backup (fs : FS) (h : fs "settings.js.bak" = none) :
    restore_settings fs = fs := by
  unfold restore_settings
  rw [h]

/-- C4: when a settings file pre-exists, `edit_settings` then an immediate
`restore_settings` (no other writer in between) returns `settings.js` to its
exact pre-write content, and a second `restore_settings` without an
intervening `edit_settings` is a no-op on the whole file system, since the
first restore consumed the only backup. -/
theorem edit_then_restore_roundtrip (ps : List String) (fs : FS) (c : String)
    (h : fs "settings.js" = some c) :
    restore_settings (edit_settings ps fs) "settings.js" = some c ∧
    restore_settings (restore_settings (edit_settings ps fs)) =
      restore_settings (edit_settings ps fs) := by
  constructor
  · simp [edit_settings, restore_settings, moveFile, writeFile, removeFile, h]
  · have hbak : restore_settings (edit_settings ps fs) "settings.js.bak" = none := by
      simp [edit_settings, restore_settings, moveFile, writeFile, removeFile, h]
    exact restore_settings_no_backup _ hbak

theorem edit_then_restore_roundtrip_witness :
    restore_settings (edit_settings ["./andy.json"] fsOrig) "settings.js" =
        some "orig" ∧
      restore_settings (restore_settings (edit_settings ["./andy.json"] fsOrig)) =
        restore_settings (edit_settings ["./andy.json"] fsOrig) :=
  edit_then_restore_roundtrip ["./andy.json"] fsOrig "orig" (by decide)

/-- C10 counterexample: with no pre-existing settings file, `edit_settings`
still clobbers a third path — the staging file `settings.js.tmp` — and when a
stale backup pre-exists, the subsequent `restore_settings` is not a no-op: it
replaces the newly written settings file with the stale backup. -/
theorem write_then_restore_initial_state_counterexample :
    edit_settings ["./andy.json"] fsStale "settings.js.tmp" ≠
        fsStale "settings.js.tmp" ∧
      restore_settings (edit_settings ["./andy.json"] fsStale) "settings.js" ≠
        edit_settings ["./andy.json"] fsStale "settings.js" :=
  ⟨by decide, by decide⟩

/-- C10 (amended): if neither a settings file nor a backup exists when
`edit_settings` is called, no backup is created, a subsequent
`restore_settings` is a no-op leaving the newly written settings file in
place — so the write-then-restore sequence does not return the system to its
pre-write state (absence of the settings file) — and only the settings file,
its backup and the staging file `settings.js.tmp` are ever changed. -/
theorem write_then_restore_initial_state (ps : List String) (fs : FS)
    (hs : fs "settings.js" = none) (hb : fs "settings.js.bak" = none) :
    edit_settings ps fs "settings.js.bak" = none ∧
    restore_settings (edit_settings ps fs) = edit_settings ps fs ∧
    edit_settings ps fs "settings.js" = some (settings_content ps) ∧
    (∀ p, p ≠ "settings.js" → p ≠ "settings.js.bak" → p ≠ "settings.js.tmp" →
      edit_settings ps fs p = fs p) := by
  have hEbak : edit_settings ps fs "settings.js.bak" = none := by
    simp [edit_settings, moveFile, writeFile, removeFile, hs, hb]
  refine ⟨hEbak, restore_settings_no_backup _ hEbak, ?_, ?_⟩
  · simp [edit_settings, moveFile, writeFile, removeFile, hs]
  · intro p h1 h2 h3
    simp [edit_settings, moveFile, writeFile, removeFile, hs, h1, h2, h3]

theorem write_then_restore_initial_state_witness :
    edit_settings ["./andy.json"] fsEmpty "settings.js.bak" = none ∧
      restore_settings (edit_settings ["./andy.json"] fsEmpty) =
        edit_settings ["./andy.json"] fsEmpty ∧
      edit_settings ["./andy.json"] fsEmpty "settings.js" =
        some (settings_content ["./andy.json"]) ∧
      (∀ p, p ≠ "settings.js" → p ≠ "settings.js.bak" → p ≠ "settings.js.tmp" →
        edit_settings ["./andy.json"] fsEmpty p = fsEmpty p) :=
  write_then_restore_initial_state ["./andy.json"] fsEmpty rfl rfl

theorem flattenResults_length (rs : ResultsMap) :
    (flattenResults rs).length = numTriples rs := by
  simp [flattenResults, modelRows, taskRows, numTriples, List.length_flatMap,
    Function.comp_def]

theorem taskRows_map_rowKey (mn : String) (tp : String × RunMap) :
    (taskRows mn tp).map rowKey = List.replicate tp.2.length (mn, tp.1) := by
  rw [taskRows, List.map_map]
  exact List.map_const' tp.2 (mn, tp.1)

theorem flatten_map_rowKey (rs : ResultsMap) :
    (flattenResults rs).map rowKey =
      (keyBlocks rs).flatMap (fun b => List.replicate b.2 b.1) := by
  rw [flattenResults, keyBlocks, List.map_flatMap, List.flatMap_assoc]
  simp [modelRows, List.map_flatMap, List.flatMap_map, taskRows_map_rowKey]

theorem pairList_eq_keyBlocks_map (rs : ResultsMap) :
    pairList rs = (keyBlocks rs).map Prod.fst := by
  simp [pairList, keyBlocks, List.map_flatMap, List.map_map]
  rfl

theorem keyBlocks_length (rs : ResultsMap) :
    (keyBlocks rs).length = numPairs rs := by
  simp [keyBlocks, numPairs, List.length_flatMap, Function.comp_def]

theorem dedup_replicate_append {α : Type} [DecidableEq α] (n : ℕ) (k : α)
    (rest : List α) (hn : n ≠ 0) (hk : k ∉ rest) :
    (List.replicate n k ++ rest).dedup = k :: rest.dedup := by
  induction n with
  | zero => exact absurd rfl hn
  | succ n ih =>
    rw [List.replicate_succ, List.cons_append]
    rcases Nat.eq_zero_or_pos n with h0 | hpos
    · subst h0
      rw [List.replicate_zero, List.nil_append]
      exact List.dedup_cons_of_not_mem hk
    · have hn' : n ≠ 0 := Nat.pos_iff_ne_zero.mp hpos
      rw [List.dedup_cons_of_mem
          (List.mem_append_left rest (List.mem_replicate.mpr ⟨hn', rfl⟩)),
        ih hn']

theorem dedup_blocks {α : Type} [DecidableEq α] (blocks : List (α × ℕ))
    (hne : ∀ b ∈ blocks, b.2 ≠ 0) (hnd : (blocks.map Prod.fst).Nodup) :
    (blocks.flatMap (fun b => List.replicate b.2 b.1)).dedup =
      blocks.map Prod.fst := by
  induction blocks with
  | nil => rfl
  | cons b bs ih =>
    rw [List.flatMap_cons, List.map_cons]
    have hnotin : b.1 ∉ bs.flatMap (fun c => List.replicate c.2 c.1) := by
      intro hmem
      rw [List.mem_flatMap] at hmem
      obtain ⟨c, hc, hrc⟩ := hmem
      have heq : b.1 = c.1 := (List.mem_replicate.mp hrc).2
      have hfst : b.1 ∈ bs.map Prod.fst := heq ▸ List.mem_map_of_mem Prod.fst hc
      exact (List.nodup_cons.mp hnd).1 hfst
    rw [dedup_replicate_append b.2 b.1 _ (hne b (List.mem_cons_self b bs)) hnotin,
      ih (fun c hc => hne c (List.mem_cons_of_mem b hc)) (List.nodup_cons.mp hnd).2]

theorem groupKeys_flatten (rs : ResultsMap)
    (hnd : (pairList rs).Nodup)
    (hne : ∀ mp ∈ rs, ∀ tp ∈ mp.2, tp.2 ≠ ([] : RunMap)) :
    groupKeys (flattenResults rs) = pairList rs := by
  rw [groupKeys, flatten_map_rowKey, pairList_eq_keyBlocks_map]
  apply dedup_blocks
  · intro b hb
    rw [keyBlocks, List.mem_flatMap] at hb
    obtain ⟨mp, hmp, hb2⟩ := hb
    rw [List.mem_map] at hb2
    obtain ⟨tp, htp, rfl⟩ := hb2
    exact fun h => hne mp hmp tp htp (List.length_eq_zero.mp h)
  · rw [← pairList_eq_keyBlocks_map]
    exact hnd

theorem sum_of_zero_one (l : List ℚ) (h : ∀ x ∈ l, x = 0 ∨ x = 1) :
    0 ≤ l.sum ∧ l.sum ≤ (l.length : ℚ) := by
  induction l with
  | nil => simp
  | cons a as ih =>
    obtain ⟨h1, h2⟩ := ih (fun x hx => h x (List.mem_cons_of_mem a hx))
    rcases h a (List.mem_cons_self a as) with ha | ha <;> subst ha <;>
      simp only [List.sum_cons, List.length_cons, Nat.cast_succ] <;>
      exact ⟨by linarith, by linarith⟩

theorem meanCompleted_mem_unit (rows : List Row) (k : String × String) :
    0 ≤ meanCompleted rows k ∧ meanCompleted rows k ≤ 1 := by
  have h : ∀ x ∈ (groupOf rows k).map (fun r => if r.completed then (1 : ℚ) else 0),
      x = 0 ∨ x = 1 := by
    intro x hx
    rw [List.mem_map] at hx
    obtain ⟨r, _, hr⟩ := hx
    by_cases hc : r.completed
    · right; rw [← hr, if_pos hc]
    · left; rw [← hr, if_neg hc]
  obtain ⟨h0, h1⟩ := sum_of_zero_one _ h
  rw [meanCompleted, meanQ]
  rcases Nat.eq_zero_or_pos
      ((groupOf rows k).map (fun r => if r.completed then (1 : ℚ) else 0)).length
    with hz | hp
  · rw [hz] at h1
    norm_num at h1
    have hs0 : ((groupOf rows k).map (fun r => if r.completed then (1 : ℚ) else 0)).sum = 0 :=
      le_antisymm h1 h0
    rw [hs0, zero_div]
    norm_num
  · have hpos : (0 : ℚ) <
        (((groupOf rows k).map (fun r => if r.completed then (1 : ℚ) else 0)).length : ℚ) := by
      exact_mod_cast hp
    exact ⟨div_nonneg h0 (le_of_lt hpos), (div_le_one hpos).mpr h1⟩

/-- C8: for a well-formed nested results mapping (distinct `(model, task)`
pairs, each task holding at least one run), the flattened `benchmark_data.csv`
table has exactly one row per `(model, task, run)` triple of the mapping, the
`benchmark_summary.csv` table has exactly one row per distinct `(model, task)`
pair, and every averaged `Completed` value of the summary lies in `[0, 1]`. -/
theorem generate_report_row_counts (rs : ResultsMap)
    (hnd : (pairList rs).Nodup)
    (hne : ∀ mp ∈ rs, ∀ tp ∈ mp.2, tp.2 ≠ ([] : RunMap)) :
    (flattenResults rs).length = numTriples rs ∧
    (generate_report_summary (flattenResults rs)).length = numPairs rs ∧
    ∀ sr ∈ generate_report_summary (flattenResults rs),
      0 ≤ sr.completedMean ∧ sr.completedMean ≤ 1 := by
  refine ⟨flattenResults_length rs, ?_, ?_⟩
  · rw [generate_report_summary, List.length_map, groupKeys_flatten rs hnd hne,
      pairList_eq_keyBlocks_map, List.length_map, keyBlocks_length]
  · intro sr hsr
    rw [generate_report_summary, List.mem_map] at hsr
    obtain ⟨k, _, rfl⟩ := hsr
    exact meanCompleted_mem_unit (flattenResults rs) k

theorem generate_report_row_counts_witness :
    (flattenResults rsSmall).length = numTriples rsSmall ∧
      (generate_report_summary (flattenResults rsSmall)).length = numPairs rsSmall ∧
      ∀ sr ∈ generate_report_summary (flattenResults rsSmall),
        0 ≤ sr.completedMean ∧ sr.completedMean ≤ 1 :=
  generate_report_row_counts rsSmall (by decide) (by decide)
